import Mathlib

/-!
Shallow embedding of the all-sports-backend CRUD service
(`src/controllers/authController.js`, the product controller in
`src/unnamed/part_002`, the category controller in `src/unnamed/part_003`).

The JavaScript controllers are modelled as pure Lean functions over an
explicit store state.  JavaScript numbers are idealised as exact rationals
(the claims never depend on floating-point rounding); the builtin
`Number(string)` coercion used by `isNaN` is modelled for decimal literals,
`Infinity` and radix-prefixed integer literals, with ASCII whitespace
trimming.  The MySQL gateway is modelled as three in-memory tables with
auto-increment counters; parameter binding of `undefined` follows the
driver's escaping (`undefined`/`null` become SQL `NULL`), and `WHERE id = ?`
matching compares the bound parameter's numeric coercion with the integer
column.  Each controller result records the HTTP status, the JSON body, the
store after the call and the number of queries issued.
-/

/-- A JavaScript number in the positions the controllers use: `NaN`,
a signed infinity, or a finite value idealised as a rational. -/
inductive JsNum where
  | nan : JsNum
  | inf (pos : Bool) : JsNum
  | fin (q : ℚ) : JsNum
deriving DecidableEq, Repr

/-- A JavaScript value as it can appear in a parsed JSON request body
(plus `undefined` for absent fields and a `NaN` number value). -/
inductive JsVal where
  | undef : JsVal
  | null : JsVal
  | jbool (b : Bool) : JsVal
  | jnum (q : ℚ) : JsVal
  | jnan : JsVal
  | jstr (s : String) : JsVal
deriving DecidableEq, Repr

namespace JsVal

/-- JavaScript truthiness: `undefined`, `null`, `false`, `0`, `NaN` and the
empty string are falsy, everything else here is truthy. -/
def truthy : JsVal → Bool
  | undef => false
  | null => false
  | jbool b => b
  | jnum q => decide (q ≠ 0)
  | jnan => false
  | jstr s => decide (s ≠ "")

/-- `typeof v === "string"`. -/
def isString : JsVal → Bool
  | jstr _ => true
  | _ => false

/-- The underlying string of a string value (only read behind an
`isString` guard, matching the short-circuit in the JS validations). -/
def strVal : JsVal → String
  | jstr s => s
  | _ => ""

end JsVal

/-- ASCII whitespace, as trimmed by the modelled `Number(string)` coercion. -/
def isWs (c : Char) : Bool :=
  c = ' ' || c = '\t' || c = '\n' || c = '\r' || c = '\x0b' || c = '\x0c'

/-- Drop leading and trailing whitespace. -/
def trimWs (l : List Char) : List Char :=
  ((l.dropWhile isWs).reverse.dropWhile isWs).reverse

/-- The characters of `s.trim()` in JavaScript (whitespace restricted to
ASCII, as in the rest of the model). -/
def jsTrim (s : String) : List Char := trimWs s.toList

/-- Numeric value of a decimal digit character. -/
def digVal (c : Char) : ℕ := c.toNat - 48

/-- Value of a nonempty all-digit run read in base 10. -/
def digitsToNat (l : List Char) : ℕ :=
  l.foldl (fun a c => a * 10 + digVal c) 0

/-- Every character is a decimal digit. -/
def allDigits (l : List Char) : Bool := l.all Char.isDigit

/-- Value of a digit in the given radix, when valid. -/
def radixDigVal (base : ℕ) (c : Char) : Option ℕ :=
  let v : ℕ :=
    if c.isDigit then c.toNat - 48
    else if 'a' ≤ c ∧ c ≤ 'f' then c.toNat - 87
    else if 'A' ≤ c ∧ c ≤ 'F' then c.toNat - 55
    else 99
  if v < base then some v else none

/-- Parse a nonempty digit run in the given radix. -/
def parseRadix (base : ℕ) : List Char → Option ℕ
  | [] => none
  | l =>
    l.foldl (fun acc c =>
      match acc, radixDigVal base c with
      | some a, some v => some (a * base + v)
      | _, _ => none) (some 0)

/-- Parse the exponent part following `e`/`E`: an optional sign then a
nonempty digit run. -/
def parseExp : List Char → Option ℤ
  | [] => none
  | '+' :: ds => if ds ≠ [] ∧ allDigits ds then some (digitsToNat ds) else none
  | '-' :: ds => if ds ≠ [] ∧ allDigits ds then some (-(digitsToNat ds : ℤ)) else none
  | ds => if allDigits ds then some (digitsToNat ds) else none

/-- Parse an unsigned decimal mantissa: `digits`, `digits.digits?` or
`.digits`, requiring at least one digit overall. -/
def parseMantissa (m : List Char) : Option ℚ :=
  let ip := m.takeWhile (· ≠ '.')
  let rest := m.dropWhile (· ≠ '.')
  match rest with
  | [] => if ip ≠ [] ∧ allDigits ip then some (digitsToNat ip) else none
  | _ :: fp =>
    if (ip ≠ [] ∨ fp ≠ []) ∧ allDigits ip ∧ allDigits fp then
      some ((digitsToNat ip : ℚ) + (digitsToNat fp : ℚ) / ((10 : ℚ) ^ fp.length))
    else none

/-- Parse an unsigned numeric literal: `Infinity` or a decimal mantissa with
an optional exponent. -/
def parseUnsigned (l : List Char) : Option JsNum :=
  if l = "Infinity".toList then some (.inf true)
  else
    let mant := l.takeWhile (fun c => c ≠ 'e' ∧ c ≠ 'E')
    let rest := l.dropWhile (fun c => c ≠ 'e' ∧ c ≠ 'E')
    match rest with
    | [] => (parseMantissa mant).map .fin
    | _ :: es =>
      match parseMantissa mant, parseExp es with
      | some q, some e => some (.fin (q * (10 : ℚ) ^ e))
      | _, _ => none

/-- Model of the JavaScript `Number(string)` coercion (as consulted by
`isNaN` and by parameter binding): trim whitespace, empty means `0`, an
optional sign followed by a decimal literal or `Infinity`, or an unsigned
radix-prefixed integer literal; anything else is `NaN`. -/
def jsStringToNumber (s : String) : JsNum :=
  match trimWs s.toList with
  | [] => .fin 0
  | '+' :: rest => (parseUnsigned rest).getD .nan
  | '-' :: rest =>
    match parseUnsigned rest with
    | some (.fin q) => .fin (-q)
    | some (.inf _) => .inf false
    | _ => .nan
  | '0' :: 'x' :: ds => (parseRadix 16 ds).elim JsNum.nan (fun n => .fin n)
  | '0' :: 'X' :: ds => (parseRadix 16 ds).elim JsNum.nan (fun n => .fin n)
  | '0' :: 'o' :: ds => (parseRadix 8 ds).elim JsNum.nan (fun n => .fin n)
  | '0' :: 'O' :: ds => (parseRadix 8 ds).elim JsNum.nan (fun n => .fin n)
  | '0' :: 'b' :: ds => (parseRadix 2 ds).elim JsNum.nan (fun n => .fin n)
  | '0' :: 'B' :: ds => (parseRadix 2 ds).elim JsNum.nan (fun n => .fin n)
  | l => (parseUnsigned l).getD .nan

/-- `ToNumber` on a JavaScript value: `undefined` is `NaN`, `null` is `0`,
booleans are `0`/`1`, strings go through the string coercion. -/
def JsVal.toNumber : JsVal → JsNum
  | .undef => .nan
  | .null => .fin 0
  | .jbool b => .fin (if b then 1 else 0)
  | .jnum q => .fin q
  | .jnan => .nan
  | .jstr s => jsStringToNumber s

/-- The global `isNaN(v)`: coerce to number and test for `NaN`. -/
def jsIsGlobalNaN (v : JsVal) : Bool := v.toNumber = JsNum.nan

/-- The `isNaN(id)` guard on a route parameter (always a string). -/
def paramIsNaN (s : String) : Bool := jsStringToNumber s = JsNum.nan

/-- The JavaScript comparison `v <= 0` (after the `isNaN` guard):
`NaN` compares false, `-Infinity <= 0` is true, finite values compare
numerically. -/
def jsLeZero (v : JsVal) : Bool :=
  match v.toNumber with
  | .nan => false
  | .inf pos => !pos
  | .fin q => decide (q ≤ 0)

/-- Driver-side escaping of a bound parameter: `undefined` (like `null`)
is bound as SQL `NULL`; other values are bound as themselves. -/
def escape : JsVal → JsVal
  | .undef => .null
  | v => v

/-- `WHERE id = ?` matching of an integer id column against a bound
parameter: MySQL compares numerically, so the parameter matches exactly
when its numeric coercion is the finite value of the column. -/
def sqlIdMatchesVal (rowId : ℕ) (v : JsVal) : Bool :=
  match v.toNumber with
  | .fin q => decide (q = (rowId : ℚ))
  | _ => false

/-- `WHERE id = ?` matching against a route-parameter string. -/
def sqlIdMatches (rowId : ℕ) (s : String) : Bool :=
  match jsStringToNumber s with
  | .fin q => decide (q = (rowId : ℚ))
  | _ => false

/-- A row of the `users` table (`pass` stores the bcrypt hash). -/
structure UserRow where
  id : ℕ
  name : String
  email : String
  pass : String
deriving DecidableEq, Repr

/-- A row of the `categories` table. -/
structure CategoryRow where
  id : ℕ
  name : String
deriving DecidableEq, Repr

/-- A row of the `products` table; columns keep the bound values
(`NULL` appears as `JsVal.null`). -/
structure ProductRow where
  id : ℕ
  name : JsVal
  price : JsVal
  category_id : JsVal
deriving DecidableEq, Repr

/-- The relational store: three tables with their auto-increment counters. -/
structure DB where
  users : List UserRow
  categories : List CategoryRow
  products : List ProductRow
  nextUserId : ℕ
  nextCategoryId : ℕ
  nextProductId : ℕ
deriving DecidableEq, Repr

/-- Outcome of one controller call: HTTP status, JSON body, the store
after the call, and the number of queries issued against the store. -/
structure Outcome (β : Type) where
  status : ℕ
  body : β
  db : DB
  queries : ℕ
deriving DecidableEq, Repr

/-- The signed token issued by `jwt.sign({ id: user.id }, secret,
{ expiresIn: "1h" })`: its payload identifier and expiry option. -/
structure JwtToken where
  userId : ℕ
  expiresIn : String
deriving DecidableEq, Repr

/-- JSON bodies produced by the auth controller. -/
inductive AuthBody where
  | message (m : String)
  | loginOk (m : String) (tok : JwtToken)
  | error (e : String)
deriving DecidableEq, Repr

/-- JSON bodies produced by the category controller (`updated` echoes the
raw route-parameter id, as `res.json({ id, name })` does). -/
inductive CatBody where
  | rows (rs : List CategoryRow)
  | row (r : CategoryRow)
  | created (id : ℕ) (name : String)
  | updated (id : String) (name : String)
  | error (e : String)
  | empty
deriving DecidableEq, Repr

/-- JSON bodies produced by the product controller (`created` and `updated`
echo the raw request-body values). -/
inductive ProdBody where
  | rows (rs : List ProductRow)
  | row (r : ProductRow)
  | created (id : ℕ) (name price category_id : JsVal)
  | updated (id : String) (name price category_id : JsVal)
  | error (e : String)
  | empty
deriving DecidableEq, Repr

namespace AuthController

/-- Request body of `POST /auth/register` (the spec types all three fields
as strings; `email` is the login key). -/
structure RegisterReq where
  name : String
  email : String
  pass : String
deriving DecidableEq, Repr

/-- `register` from `src/controllers/authController.js`: look up the email,
reject a duplicate with 400, otherwise hash the password with
`bcrypt.hash(pass, 10)` and insert one row.  `bhash` is the bcrypt hash
routine, taking the plaintext and the work factor. -/
def register (bhash : String → ℕ → String) (r : RegisterReq) (db : DB) :
    Outcome AuthBody :=
  let users := db.users.filter (fun u => u.email = r.email)
  if users.length ≠ 0 then
    ⟨400, .error "Email already registered", db, 1⟩
  else
    let hashedPassword := bhash r.pass 10
    ⟨201, .message "User registered successfully",
      { db with
          users := db.users ++ [⟨db.nextUserId, r.name, r.email, hashedPassword⟩],
          nextUserId := db.nextUserId + 1 },
      2⟩

/-- `login` from `src/controllers/authController.js`: look up the email,
400 `User not found` on no match, 400 `Invalid credentials` when
`bcrypt.compare` fails on the first matching row, otherwise 200 with a
token signed for the user's id and a 1-hour expiry.  `bcompare` is the
bcrypt comparison of a plaintext against a stored hash. -/
def login (bcompare : String → String → Bool) (email pass : String) (db : DB) :
    Outcome AuthBody :=
  match db.users.filter (fun u => u.email = email) with
  | [] => ⟨400, .error "User not found", db, 1⟩
  | user :: _ =>
    if !(bcompare pass user.pass) then
      ⟨400, .error "Invalid credentials", db, 1⟩
    else
      ⟨200, .loginOk "Login Success." ⟨user.id, "1h"⟩, db, 1⟩

end AuthController

namespace CategoryController

/-- The category controller's helper `categoryExists(name)`:
`SELECT * FROM categories WHERE name = ?` is nonempty. -/
def categoryExists (name : String) (db : DB) : Bool :=
  (db.categories.filter (fun c => c.name = name)).length > 0

/-- The name validation
`!name || typeof name !== "string" || name.trim().length === 0`. -/
def nameInvalid (name : JsVal) : Bool :=
  !name.truthy || !name.isString || (jsTrim name.strVal).length = 0

/-- `getCategories`. -/
def getCategories (db : DB) : Outcome CatBody :=
  ⟨200, .rows db.categories, db, 1⟩

/-- `getCategoryById`: 400 on a non-numeric id, 404 on no matching row,
otherwise the first matching row. -/
def getCategoryById (id : String) (db : DB) : Outcome CatBody :=
  if paramIsNaN id then ⟨400, .error "Invalid category ID", db, 0⟩
  else
    match db.categories.filter (fun c => sqlIdMatches c.id id) with
    | [] => ⟨404, .error "Category not found", db, 1⟩
    | c :: _ => ⟨200, .row c, db, 1⟩

/-- `createCategory`: validate the name, reject a duplicate name with 400,
otherwise insert and answer 201 with the assigned id. -/
def createCategory (name : JsVal) (db : DB) : Outcome CatBody :=
  if nameInvalid name then
    ⟨400, .error "Category name is required and must be a non-empty string.", db, 0⟩
  else if categoryExists name.strVal db then
    ⟨400, .error "Category already exists", db, 1⟩
  else
    ⟨201, .created db.nextCategoryId name.strVal,
      { db with
          categories := db.categories ++ [⟨db.nextCategoryId, name.strVal⟩],
          nextCategoryId := db.nextCategoryId + 1 },
      2⟩

/-- `updateCategory`: id and name validation, existence check, then
`UPDATE categories SET name = ? WHERE id = ?` (affected rows modelled as
the matched rows). -/
def updateCategory (id : String) (name : JsVal) (db : DB) : Outcome CatBody :=
  if paramIsNaN id then ⟨400, .error "Invalid category ID", db, 0⟩
  else if nameInvalid name then
    ⟨400, .error "Category name is required and must be a non-empty string.", db, 0⟩
  else
    match db.categories.filter (fun c => sqlIdMatches c.id id) with
    | [] => ⟨404, .error "Category not found", db, 1⟩
    | _ :: _ =>
      let affected := (db.categories.filter (fun c => sqlIdMatches c.id id)).length
      if affected = 0 then ⟨404, .error "Category not found", db, 2⟩
      else
        ⟨200, .updated id name.strVal,
          { db with
              categories := db.categories.map (fun c =>
                if sqlIdMatches c.id id then { c with name := name.strVal } else c) },
          2⟩

/-- `deleteCategory`: id validation, `DELETE FROM categories WHERE id = ?`,
404 when zero rows were affected, otherwise 204 with no content. -/
def deleteCategory (id : String) (db : DB) : Outcome CatBody :=
  if paramIsNaN id then ⟨400, .error "Invalid category ID", db, 0⟩
  else
    let affected := (db.categories.filter (fun c => sqlIdMatches c.id id)).length
    let db' := { db with categories := db.categories.filter (fun c => !sqlIdMatches c.id id) }
    if affected = 0 then ⟨404, .error "Category not found", db', 1⟩
    else ⟨204, .empty, db', 1⟩

end CategoryController

namespace ProductController

/-- Request body of product create/update: the three optional JSON fields. -/
structure ProductBody where
  name : JsVal
  price : JsVal
  category_id : JsVal
deriving DecidableEq, Repr

/-- The product controller's helper `categoryExists(categoryId)`:
`SELECT * FROM categories WHERE id = ?` is nonempty. -/
def categoryExists (categoryId : JsVal) (db : DB) : Bool :=
  (db.categories.filter (fun c => sqlIdMatchesVal c.id categoryId)).length > 0

/-- The create-side name validation
`!name || typeof name !== "string" || name.trim().length === 0`. -/
def nameInvalid (name : JsVal) : Bool :=
  !name.truthy || !name.isString || (jsTrim name.strVal).length = 0

/-- The create-side price validation `isNaN(price) || price <= 0`. -/
def priceInvalid (price : JsVal) : Bool :=
  jsIsGlobalNaN price || jsLeZero price

/-- The create-side category-id validation `isNaN(category_id)`. -/
def cidInvalid (category_id : JsVal) : Bool :=
  jsIsGlobalNaN category_id

/-- The update-side name validation
`name && (typeof name !== "string" || name.trim().length === 0)`:
only a truthy supplied value triggers it. -/
def nameUpdInvalid (name : JsVal) : Bool :=
  name.truthy && (!name.isString || (jsTrim name.strVal).length = 0)

/-- The update-side price validation `price && (isNaN(price) || price <= 0)`. -/
def priceUpdInvalid (price : JsVal) : Bool :=
  price.truthy && (jsIsGlobalNaN price || jsLeZero price)

/-- The update-side category-id validation `category_id && isNaN(category_id)`. -/
def cidUpdInvalid (category_id : JsVal) : Bool :=
  category_id.truthy && jsIsGlobalNaN category_id

/-- `getProducts`. -/
def getProducts (db : DB) : Outcome ProdBody :=
  ⟨200, .rows db.products, db, 1⟩

/-- `getProductById`: 400 on a non-numeric id, 404 on no matching row,
otherwise the first matching row. -/
def getProductById (id : String) (db : DB) : Outcome ProdBody :=
  if paramIsNaN id then ⟨400, .error "Invalid product ID", db, 0⟩
  else
    match db.products.filter (fun p => sqlIdMatches p.id id) with
    | [] => ⟨404, .error "Product not found", db, 1⟩
    | p :: _ => ⟨200, .row p, db, 1⟩

/-- `createProduct`: validate name, price and category_id, reject a
nonexistent category with 400 `Category does not exist`, otherwise insert
one row and answer 201 echoing the request values with the assigned id. -/
def createProduct (b : ProductBody) (db : DB) : Outcome ProdBody :=
  if nameInvalid b.name then
    ⟨400, .error "Product name is required and must be a non-empty string.", db, 0⟩
  else if priceInvalid b.price then
    ⟨400, .error "Product price must be a positive number.", db, 0⟩
  else if cidInvalid b.category_id then
    ⟨400, .error "Category ID must be a valid number.", db, 0⟩
  else if !(categoryExists b.category_id db) then
    ⟨400, .error "Category does not exist", db, 1⟩
  else
    ⟨201, .created db.nextProductId b.name b.price b.category_id,
      { db with
          products := db.products ++
            [⟨db.nextProductId, escape b.name, escape b.price, escape b.category_id⟩],
          nextProductId := db.nextProductId + 1 },
      2⟩

/-- `updateProduct`: id validation, then per-field validation gated on the
field being truthy, product existence check, category existence check gated
on a truthy category_id, then `UPDATE products SET name = ?, price = ?,
category_id = ? WHERE id = ?` writing all three bound values (affected rows
modelled as the matched rows), echoing the raw id and body values. -/
def updateProduct (id : String) (b : ProductBody) (db : DB) : Outcome ProdBody :=
  if paramIsNaN id then ⟨400, .error "Invalid product ID", db, 0⟩
  else if nameUpdInvalid b.name then
    ⟨400, .error "Product name must be a non-empty string.", db, 0⟩
  else if priceUpdInvalid b.price then
    ⟨400, .error "Product price must be a positive number.", db, 0⟩
  else if cidUpdInvalid b.category_id then
    ⟨400, .error "Category ID must be a valid number.", db, 0⟩
  else
    match db.products.filter (fun p => sqlIdMatches p.id id) with
    | [] => ⟨404, .error "Product not found", db, 1⟩
    | _ :: _ =>
      if b.category_id.truthy && !(categoryExists b.category_id db) then
        ⟨400, .error "Category does not exist", db, 2⟩
      else
        let qs := if b.category_id.truthy then 3 else 2
        let affected := (db.products.filter (fun p => sqlIdMatches p.id id)).length
        if affected = 0 then ⟨404, .error "Product not found", db, qs⟩
        else
          ⟨200, .updated id b.name b.price b.category_id,
            { db with
                products := db.products.map (fun p =>
                  if sqlIdMatches p.id id then
                    { p with
                        name := escape b.name,
                        price := escape b.price,
                        category_id := escape b.category_id }
                  else p) },
            qs⟩

/-- `deleteProduct`: id validation, `DELETE FROM products WHERE id = ?`,
404 when zero rows were affected, otherwise 204 with no content. -/
def deleteProduct (id : String) (db : DB) : Outcome ProdBody :=
  if paramIsNaN id then ⟨400, .error "Invalid product ID", db, 0⟩
  else
    let affected := (db.products.filter (fun p => sqlIdMatches p.id id)).length
    let db' := { db with products := db.products.filter (fun p => !sqlIdMatches p.id id) }
    if affected = 0 then ⟨404, .error "Product not found", db', 1⟩
    else ⟨204, .empty, db', 1⟩

end ProductController

/-- Spec-side reading of a "well-formed positive integer" id string:
a nonempty run of decimal digits denoting a value greater than zero. -/
def wellFormedPosInt (s : String) : Bool :=
  s.toList ≠ [] && allDigits s.toList && decide (0 < digitsToNat s.toList)

/-- An empty store, all auto-increment counters at 1. -/
def emptyDB : DB := ⟨[], [], [], 1, 1, 1⟩

/-- Filtering for a predicate after keeping only its complement yields
nothing. -/
theorem filter_not_self {α : Type} (p : α → Bool) (l : List α) :
    (l.filter (fun a => !p a)).filter p = [] := by
  induction l with
  | nil => rfl
  | cons a l ih =>
    by_cases h : p a <;> simp [List.filter_cons, h, ih]

/-- C8: for every non-numeric id, `getById`, `update` and `delete` on both
resources answer 400 with `Invalid category ID` / `Invalid product ID`,
leave the store unchanged and issue no query. -/
theorem C8_nonNumericId_rejectedWithoutQueries
    (s : String) (h : jsStringToNumber s = JsNum.nan)
    (db : DB) (name : JsVal) (b : ProductController.ProductBody) :
    CategoryController.getCategoryById s db =
      ⟨400, .error "Invalid category ID", db, 0⟩ ∧
    CategoryController.updateCategory s name db =
      ⟨400, .error "Invalid category ID", db, 0⟩ ∧
    CategoryController.deleteCategory s db =
      ⟨400, .error "Invalid category ID", db, 0⟩ ∧
    ProductController.getProductById s db =
      ⟨400, .error "Invalid product ID", db, 0⟩ ∧
    ProductController.updateProduct s b db =
      ⟨400, .error "Invalid product ID", db, 0⟩ ∧
    ProductController.deleteProduct s db =
      ⟨400, .error "Invalid product ID", db, 0⟩ := by
  have hp : paramIsNaN s = true := by simp [paramIsNaN, h]
  refine ⟨?_, ?_, ?_, ?_, ?_, ?_⟩ <;>
    simp [CategoryController.getCategoryById, CategoryController.updateCategory,
      CategoryController.deleteCategory, ProductController.getProductById,
      ProductController.updateProduct, ProductController.deleteProduct, hp]

/-- C8 witness: the id `"abc"` is non-numeric and all six operations
reject it on the empty store. -/
theorem C8_nonNumericId_witness :
    jsStringToNumber "abc" = JsNum.nan ∧
    CategoryController.getCategoryById "abc" emptyDB =
      ⟨400, .error "Invalid category ID", emptyDB, 0⟩ ∧
    ProductController.deleteProduct "abc" emptyDB =
      ⟨400, .error "Invalid product ID", emptyDB, 0⟩ := by
  have h : jsStringToNumber "abc" = JsNum.nan := by decide
  have := C8_nonNumericId_rejectedWithoutQueries "abc" h emptyDB .undef ⟨.undef, .undef, .undef⟩
  exact ⟨h, this.1, this.2.2.2.2.2⟩

/-- A store holding the single category `⟨1, "Shoes"⟩`. -/
def oneCatDB : DB := ⟨[], [⟨1, "Shoes"⟩], [], 1, 2, 1⟩

/-- C5 counterexample: `"-3"` is not a well-formed positive integer, yet
`getCategoryById` does not answer the 400 `Invalid category ID` error for
it (the guard is JavaScript `isNaN`, which accepts `"-3"`), so the
claimed equivalence fails. -/
theorem C5_getCategoryById_counterexample :
    wellFormedPosInt "-3" = false ∧
    (CategoryController.getCategoryById "-3" emptyDB).status = 404 ∧
    (CategoryController.getCategoryById "-3" emptyDB).body ≠
      CatBody.error "Invalid category ID" := by
  refine ⟨by decide, by decide, by decide⟩

/-- C5 amended: `getCategoryById` answers 400 `Invalid category ID` exactly
when the id fails JavaScript numeric coercion (`isNaN`); for a numeric id
it answers 404 `Category not found` when no row matches, and 200 with the
first matching row otherwise. -/
theorem C5_getCategoryById_amended (s : String) (db : DB) :
    (((CategoryController.getCategoryById s db).status = 400 ∧
      (CategoryController.getCategoryById s db).body =
        CatBody.error "Invalid category ID") ↔
      jsStringToNumber s = JsNum.nan) ∧
    (jsStringToNumber s ≠ JsNum.nan →
      (db.categories.filter (fun c => sqlIdMatches c.id s) = [] →
        CategoryController.getCategoryById s db =
          ⟨404, .error "Category not found", db, 1⟩) ∧
      ∀ c cs, db.categories.filter (fun c => sqlIdMatches c.id s) = c :: cs →
        CategoryController.getCategoryById s db = ⟨200, .row c, db, 1⟩) := by
  by_cases h : paramIsNaN s = true
  · have hn : jsStringToNumber s = JsNum.nan := by
      simpa [paramIsNaN] using h
    refine ⟨?_, ?_⟩
    · simp [CategoryController.getCategoryById, h, hn]
    · intro hne; exact absurd hn hne
  · have hn : ¬ jsStringToNumber s = JsNum.nan := by
      simpa [paramIsNaN] using h
    refine ⟨?_, ?_⟩
    · constructor
      · intro hcon
        rcases hfil : db.categories.filter (fun c => sqlIdMatches c.id s) with _ | ⟨c, cs⟩ <;>
          simp [CategoryController.getCategoryById, h, hfil] at hcon
      · intro hcon; exact absurd hcon hn
    · intro _
      constructor
      · intro hfil
        simp [CategoryController.getCategoryById, h, hfil]
      · intro c cs hfil
        simp [CategoryController.getCategoryById, h, hfil]

/-- C5 witness: on the one-category store, the numeric id `"1"` returns
the row and the numeric id `"7"` returns 404. -/
theorem C5_getCategoryById_witness :
    CategoryController.getCategoryById "1" oneCatDB =
      ⟨200, .row ⟨1, "Shoes"⟩, oneCatDB, 1⟩ ∧
    CategoryController.getCategoryById "7" oneCatDB =
      ⟨404, .error "Category not found", oneCatDB, 1⟩ := by
  constructor
  · exact ((C5_getCategoryById_amended "1" oneCatDB).2 (by decide)).2
      ⟨1, "Shoes"⟩ [] (by decide)
  · exact ((C5_getCategoryById_amended "7" oneCatDB).2 (by decide)).1 (by decide)

/-- A concrete stand-in for `bcrypt.hash` used only to instantiate
witnesses: tags the plaintext with the work factor. -/
def hashModel (pass : String) (cost : ℕ) : String :=
  toString cost ++ "$" ++ pass

/-- The matching stand-in for `bcrypt.compare`. -/
def compareModel (pass stored : String) : Bool :=
  stored = hashModel pass 10

/-- C2: `register` answers 400 `Email already registered` and leaves the
store untouched when a user row with that email exists; otherwise it
inserts exactly one row whose password is `bcrypt.hash(pass, 10)` and
answers 201; and on a fresh email, registering the same email twice gives
201 then 400 with the store unchanged by the second call. -/
theorem C2_register_spec (bhash : String → ℕ → String)
    (r : AuthController.RegisterReq) (db : DB) :
    ((db.users.filter (fun u => u.email = r.email)).length ≠ 0 →
      AuthController.register bhash r db =
        ⟨400, .error "Email already registered", db, 1⟩) ∧
    ((db.users.filter (fun u => u.email = r.email)).length = 0 →
      AuthController.register bhash r db =
        ⟨201, .message "User registered successfully",
          { db with
              users := db.users ++
                [⟨db.nextUserId, r.name, r.email, bhash r.pass 10⟩],
              nextUserId := db.nextUserId + 1 }, 2⟩) ∧
    ((db.users.filter (fun u => u.email = r.email)).length = 0 →
      (AuthController.register bhash r db).status = 201 ∧
      ∀ r' : AuthController.RegisterReq, r'.email = r.email →
        (AuthController.register bhash r'
            (AuthController.register bhash r db).db).status = 400 ∧
        (AuthController.register bhash r'
            (AuthController.register bhash r db).db).db =
          (AuthController.register bhash r db).db) := by
  refine ⟨?_, ?_, ?_⟩
  · intro h; simp [AuthController.register, h]
  · intro h; simp [AuthController.register, h]
  · intro h
    refine ⟨by simp [AuthController.register, h], ?_⟩
    intro r' he
    have hdb : (AuthController.register bhash r db).db =
        { db with
            users := db.users ++
              [⟨db.nextUserId, r.name, r.email, bhash r.pass 10⟩],
            nextUserId := db.nextUserId + 1 } := by
      simp [AuthController.register, h]
    rw [hdb]
    constructor <;>
      simp [AuthController.register, List.filter_append, he, h]

/-- C2 witness: on the empty store, registering an email succeeds with 201
and registering it again answers 400. -/
theorem C2_register_witness :
    (AuthController.register hashModel
      ⟨"John", "j@example.com", "pw"⟩ emptyDB).status = 201 ∧
    (AuthController.register hashModel ⟨"John", "j@example.com", "pw"⟩
      (AuthController.register hashModel
        ⟨"John", "j@example.com", "pw"⟩ emptyDB).db).status = 400 := by
  have h := (C2_register_spec hashModel
    ⟨"John", "j@example.com", "pw"⟩ emptyDB).2.2 (by decide)
  exact ⟨h.1, (h.2 ⟨"John", "j@example.com", "pw"⟩ rfl).1⟩

/-- C3: `login` answers 400 `User not found` when no user row matches the
email; 400 `Invalid credentials` when the first matching row fails the
hash comparison; and otherwise 200 `Login Success.` with a token signed
for that user's id and a 1-hour expiry — exactly one of the three. -/
theorem C3_login_trichotomy (bcompare : String → String → Bool)
    (email pass : String) (db : DB) :
    (db.users.filter (fun u => u.email = email) = [] →
      AuthController.login bcompare email pass db =
        ⟨400, .error "User not found", db, 1⟩) ∧
    ∀ u us, db.users.filter (fun u => u.email = email) = u :: us →
      (bcompare pass u.pass = false →
        AuthController.login bcompare email pass db =
          ⟨400, .error "Invalid credentials", db, 1⟩) ∧
      (bcompare pass u.pass = true →
        AuthController.login bcompare email pass db =
          ⟨200, .loginOk "Login Success." ⟨u.id, "1h"⟩, db, 1⟩) := by
  refine ⟨?_, ?_⟩
  · intro hfil; simp [AuthController.login, hfil]
  · intro u us hfil
    constructor <;> intro hc <;> simp [AuthController.login, hfil, hc]

/-- A store holding one registered user. -/
def oneUserDB : DB :=
  ⟨[⟨1, "Test", "t@example.com", hashModel "pw" 10⟩], [], [], 2, 1, 1⟩

/-- C3 witness: against the one-user store, the right password logs in
with 200 and a token for user 1, the wrong password answers 400
`Invalid credentials`, and an unknown email answers 400 `User not found`. -/
theorem C3_login_witness :
    AuthController.login compareModel "t@example.com" "pw" oneUserDB =
      ⟨200, .loginOk "Login Success." ⟨1, "1h"⟩, oneUserDB, 1⟩ ∧
    AuthController.login compareModel "t@example.com" "bad" oneUserDB =
      ⟨400, .error "Invalid credentials", oneUserDB, 1⟩ ∧
    AuthController.login compareModel "x@example.com" "pw" oneUserDB =
      ⟨400, .error "User not found", oneUserDB, 1⟩ := by
  refine ⟨?_, ?_, ?_⟩
  · exact (((C3_login_trichotomy compareModel "t@example.com" "pw" oneUserDB).2
      ⟨1, "Test", "t@example.com", hashModel "pw" 10⟩ [] (by decide)).2) (by decide)
  · exact (((C3_login_trichotomy compareModel "t@example.com" "bad" oneUserDB).2
      ⟨1, "Test", "t@example.com", hashModel "pw" 10⟩ [] (by decide)).1) (by decide)
  · exact (C3_login_trichotomy compareModel "x@example.com" "pw" oneUserDB).1 (by decide)

/-- C1: when name, price and category_id pass field validation,
`createProduct` answers 400 `Category does not exist` and leaves the store
untouched when no category row matches the supplied category_id, and
otherwise inserts exactly one product row and answers 201 with a body
echoing the supplied category_id. -/
theorem C1_createProduct_spec (b : ProductController.ProductBody) (db : DB)
    (h1 : ProductController.nameInvalid b.name = false)
    (h2 : ProductController.priceInvalid b.price = false)
    (h3 : ProductController.cidInvalid b.category_id = false) :
    (ProductController.categoryExists b.category_id db = false →
      ProductController.createProduct b db =
        ⟨400, .error "Category does not exist", db, 1⟩) ∧
    (ProductController.categoryExists b.category_id db = true →
      ProductController.createProduct b db =
        ⟨201, .created db.nextProductId b.name b.price b.category_id,
          { db with
              products := db.products ++
                [⟨db.nextProductId, escape b.name, escape b.price,
                  escape b.category_id⟩],
              nextProductId := db.nextProductId + 1 }, 2⟩) := by
  constructor <;> intro hc <;>
    simp [ProductController.createProduct, h1, h2, h3, hc]

/-- C1 witness: on the one-category store, creating a product with
category_id 7 answers 400 `Category does not exist` without inserting,
and with category_id 1 answers 201 echoing category_id 1. -/
theorem C1_createProduct_witness :
    ProductController.createProduct ⟨.jstr "Runner", .jnum 50, .jnum 7⟩ oneCatDB =
      ⟨400, .error "Category does not exist", oneCatDB, 1⟩ ∧
    ProductController.createProduct ⟨.jstr "Runner", .jnum 50, .jnum 1⟩ oneCatDB =
      ⟨201, .created 1 (.jstr "Runner") (.jnum 50) (.jnum 1),
        { oneCatDB with
            products := [⟨1, .jstr "Runner", .jnum 50, .jnum 1⟩],
            nextProductId := 2 }, 2⟩ := by
  constructor
  · exact (C1_createProduct_spec ⟨.jstr "Runner", .jnum 50, .jnum 7⟩ oneCatDB
      (by decide) (by decide) (by decide)).1 (by decide)
  · exact (C1_createProduct_spec ⟨.jstr "Runner", .jnum 50, .jnum 1⟩ oneCatDB
      (by decide) (by decide) (by decide)).2 (by decide)


/-- C7: for a valid category name, `createCategory` answers 400
`Category already exists` and inserts nothing when a row with that exact
name is present; otherwise it inserts the name under the freshly assigned
id and a subsequent `getCategoryById` with that id returns a record
carrying exactly that name. -/
theorem C7_createCategory_then_getById (name : String) (db : DB)
    (hvalid : (jsTrim name).length ≠ 0)
    (hfresh : ∀ c ∈ db.categories, c.id ≠ db.nextCategoryId) :
    (CategoryController.categoryExists name db = true →
      CategoryController.createCategory (.jstr name) db =
        ⟨400, .error "Category already exists", db, 1⟩) ∧
    (CategoryController.categoryExists name db = false →
      CategoryController.createCategory (.jstr name) db =
        ⟨201, .created db.nextCategoryId name,
          { db with
              categories := db.categories ++ [⟨db.nextCategoryId, name⟩],
              nextCategoryId := db.nextCategoryId + 1 }, 2⟩ ∧
      ∀ s, jsStringToNumber s = JsNum.fin (db.nextCategoryId : ℚ) →
        CategoryController.getCategoryById s
            (CategoryController.createCategory (.jstr name) db).db =
          ⟨200, .row ⟨db.nextCategoryId, name⟩,
            (CategoryController.createCategory (.jstr name) db).db, 1⟩) := by
  have hne : name ≠ "" := by
    intro h
    rw [h] at hvalid
    exact hvalid (by decide)
  have hnv : CategoryController.nameInvalid (.jstr name) = false := by
    simp [CategoryController.nameInvalid, JsVal.truthy, JsVal.isString,
      JsVal.strVal, hne, hvalid]
  constructor
  · intro hex
    simp [CategoryController.createCategory, hnv, JsVal.strVal, hex]
  · intro hex
    have hout : CategoryController.createCategory (.jstr name) db =
        ⟨201, .created db.nextCategoryId name,
          { db with
              categories := db.categories ++ [⟨db.nextCategoryId, name⟩],
              nextCategoryId := db.nextCategoryId + 1 }, 2⟩ := by
      simp [CategoryController.createCategory, hnv, JsVal.strVal, hex]
    refine ⟨hout, ?_⟩
    intro s hs
    rw [hout]
    have hp : paramIsNaN s = false := by simp [paramIsNaN, hs]
    have h1 : db.categories.filter (fun c => decide (db.nextCategoryId = c.id)) = [] := by
      rw [List.filter_eq_nil_iff]
      intro c hc hmatch
      have heq : db.nextCategoryId = c.id := by simpa using hmatch
      exact hfresh c hc heq.symm
    simp [CategoryController.getCategoryById, hp, List.filter_append,
      sqlIdMatches, hs, h1]

/-- C7 witness: on the empty store, creating `"Shoes"` assigns id 1 and
`getCategoryById "1"` then returns it; on the one-category store, creating
`"Shoes"` again answers 400 `Category already exists`. -/
theorem C7_createCategory_witness :
    (CategoryController.createCategory (.jstr "Shoes") emptyDB).status = 201 ∧
    CategoryController.getCategoryById "1"
        (CategoryController.createCategory (.jstr "Shoes") emptyDB).db =
      ⟨200, .row ⟨1, "Shoes"⟩,
        (CategoryController.createCategory (.jstr "Shoes") emptyDB).db, 1⟩ ∧
    CategoryController.createCategory (.jstr "Shoes") oneCatDB =
      ⟨400, .error "Category already exists", oneCatDB, 1⟩ := by
  have hnew := (C7_createCategory_then_getById "Shoes" emptyDB
    (by decide) (by intro c hc; simp [emptyDB] at hc)).2 (by decide)
  have hdup := (C7_createCategory_then_getById "Shoes" oneCatDB
    (by decide) (by
      intro c hc
      simp [oneCatDB] at hc
      rw [hc]
      decide)).1 (by decide)
  exact ⟨by rw [hnew.1], hnew.2 "1" (by decide), hdup⟩

/-- C9: for a numeric id, both deletes answer 404 exactly when zero rows
are affected and 204 with no content when a matching row was removed;
after a successful delete, `getById` on the same id answers 404. -/
theorem C9_delete_spec (s : String) (db : DB)
    (h : jsStringToNumber s ≠ JsNum.nan) :
    ((CategoryController.deleteCategory s db).status = 404 ↔
      (db.categories.filter (fun c => sqlIdMatches c.id s)).length = 0) ∧
    ((db.categories.filter (fun c => sqlIdMatches c.id s)).length ≠ 0 →
      CategoryController.deleteCategory s db =
        ⟨204, .empty,
          { db with
              categories := db.categories.filter (fun c => !sqlIdMatches c.id s) },
          1⟩ ∧
      CategoryController.getCategoryById s (CategoryController.deleteCategory s db).db =
        ⟨404, .error "Category not found",
          (CategoryController.deleteCategory s db).db, 1⟩) ∧
    ((ProductController.deleteProduct s db).status = 404 ↔
      (db.products.filter (fun p => sqlIdMatches p.id s)).length = 0) ∧
    ((db.products.filter (fun p => sqlIdMatches p.id s)).length ≠ 0 →
      ProductController.deleteProduct s db =
        ⟨204, .empty,
          { db with
              products := db.products.filter (fun p => !sqlIdMatches p.id s) },
          1⟩ ∧
      ProductController.getProductById s (ProductController.deleteProduct s db).db =
        ⟨404, .error "Product not found",
          (ProductController.deleteProduct s db).db, 1⟩) := by
  have hp : paramIsNaN s = false := by simp [paramIsNaN, h]
  refine ⟨?_, ?_, ?_, ?_⟩
  · by_cases haff : (db.categories.filter (fun c => sqlIdMatches c.id s)).length = 0 <;>
      simp [CategoryController.deleteCategory, hp, haff]
  · intro haff
    have hdel : CategoryController.deleteCategory s db =
        ⟨204, .empty,
          { db with
              categories := db.categories.filter (fun c => !sqlIdMatches c.id s) },
          1⟩ := by
      simp [CategoryController.deleteCategory, hp, haff]
    refine ⟨hdel, ?_⟩
    rw [hdel]
    simp [CategoryController.getCategoryById, hp, filter_not_self]
  · by_cases haff : (db.products.filter (fun p => sqlIdMatches p.id s)).length = 0 <;>
      simp [ProductController.deleteProduct, hp, haff]
  · intro haff
    have hdel : ProductController.deleteProduct s db =
        ⟨204, .empty,
          { db with
              products := db.products.filter (fun p => !sqlIdMatches p.id s) },
          1⟩ := by
      simp [ProductController.deleteProduct, hp, haff]
    refine ⟨hdel, ?_⟩
    rw [hdel]
    simp [ProductController.getProductById, hp, filter_not_self]

/-- A store with one category and one product, both with id 1. -/
def oneProdDB : DB :=
  ⟨[], [⟨1, "Shoes"⟩], [⟨1, .jstr "Runner", .jnum 50, .jnum 1⟩], 1, 2, 2⟩

/-- C9 witness: deleting the nonexistent id `"9"` answers 404, deleting
the existing id `"1"` answers 204 and `getById "1"` afterwards answers
404, on both resources. -/
theorem C9_delete_witness :
    (CategoryController.deleteCategory "9" oneProdDB).status = 404 ∧
    (CategoryController.deleteCategory "1" oneProdDB).status = 204 ∧
    (CategoryController.getCategoryById "1"
      (CategoryController.deleteCategory "1" oneProdDB).db).status = 404 ∧
    (ProductController.deleteProduct "9" oneProdDB).status = 404 ∧
    (ProductController.deleteProduct "1" oneProdDB).status = 204 ∧
    (ProductController.getProductById "1"
      (ProductController.deleteProduct "1" oneProdDB).db).status = 404 := by
  have h9 := C9_delete_spec "9" oneProdDB (by decide)
  have h1 := C9_delete_spec "1" oneProdDB (by decide)
  have hc := h1.2.1 (by decide)
  have hpr := h1.2.2.2 (by decide)
  refine ⟨h9.1.mpr (by decide), ?_, ?_, h9.2.2.1.mpr (by decide), ?_, ?_⟩
  · rw [hc.1]
  · rw [hc.2]
  · rw [hpr.1]
  · rw [hpr.2]

/-- C10: when a numeric id matches no product row and the supplied
category_id resolves to no category row (all field validations passing),
`updateProduct` answers 404 `Product not found`: the product existence
check precedes the category existence check. -/
theorem C10_updateProduct_notFound_precedence (id : String)
    (b : ProductController.ProductBody) (db : DB)
    (hid : jsStringToNumber id ≠ JsNum.nan)
    (h1 : ProductController.nameUpdInvalid b.name = false)
    (h2 : ProductController.priceUpdInvalid b.price = false)
    (h3 : ProductController.cidUpdInvalid b.category_id = false)
    (hprod : db.products.filter (fun p => sqlIdMatches p.id id) = [])
    (_hcat : ProductController.categoryExists b.category_id db = false) :
    ProductController.updateProduct id b db =
      ⟨404, .error "Product not found", db, 1⟩ := by
  have hp : paramIsNaN id = false := by simp [paramIsNaN, hid]
  simp [ProductController.updateProduct, hp, h1, h2, h3, hprod]

/-- C10 witness: on the empty store, updating product `"5"` with the
unresolvable category_id 9 answers 404 `Product not found`, not the
category error. -/
theorem C10_updateProduct_witness :
    ProductController.updateProduct "5" ⟨.undef, .undef, .jnum 9⟩ emptyDB =
      ⟨404, .error "Product not found", emptyDB, 1⟩ := by
  exact C10_updateProduct_notFound_precedence "5" ⟨.undef, .undef, .jnum 9⟩ emptyDB
    (by decide) (by decide) (by decide) (by decide) (by decide) (by decide)

/-- In the list written by the update statement, every row matching the id
carries the three bound values. -/
theorem updateRows_overwrites (id : String) (b : ProductController.ProductBody)
    (ps : List ProductRow) (p : ProductRow)
    (hp : p ∈ ps.map (fun r =>
      if sqlIdMatches r.id id then
        { r with
            name := escape b.name,
            price := escape b.price,
            category_id := escape b.category_id }
      else r))
    (hm : sqlIdMatches p.id id = true) :
    p.name = escape b.name ∧ p.price = escape b.price ∧
      p.category_id = escape b.category_id := by
  rcases List.mem_map.mp hp with ⟨r, _, heq⟩
  by_cases hmr : sqlIdMatches r.id id = true
  · rw [if_pos hmr] at heq
    rw [← heq]
    exact ⟨rfl, rfl, rfl⟩
  · rw [if_neg hmr] at heq
    rw [← heq] at hm
    exact absurd hm hmr

/-- C4: every successful product update overwrites all three columns of
the targeted row with the bound request values; in particular, with all
three fields absent a successful update nulls the three columns. -/
theorem C4_updateProduct_overwritesAllColumns (id : String)
    (b : ProductController.ProductBody) (db : DB)
    (h : (ProductController.updateProduct id b db).status = 200) :
    (∀ p ∈ (ProductController.updateProduct id b db).db.products,
      sqlIdMatches p.id id = true →
        p.name = escape b.name ∧ p.price = escape b.price ∧
        p.category_id = escape b.category_id) ∧
    (b.name = .undef → b.price = .undef → b.category_id = .undef →
      ∀ p ∈ (ProductController.updateProduct id b db).db.products,
        sqlIdMatches p.id id = true →
          p.name = .null ∧ p.price = .null ∧ p.category_id = .null) := by
  have main : ∀ p ∈ (ProductController.updateProduct id b db).db.products,
      sqlIdMatches p.id id = true →
        p.name = escape b.name ∧ p.price = escape b.price ∧
        p.category_id = escape b.category_id := by
    intro p hp hm
    cases hA : paramIsNaN id with
    | true => simp [ProductController.updateProduct, hA] at h
    | false =>
    cases hB : ProductController.nameUpdInvalid b.name with
    | true => simp [ProductController.updateProduct, hA, hB] at h
    | false =>
    cases hC : ProductController.priceUpdInvalid b.price with
    | true => simp [ProductController.updateProduct, hA, hB, hC] at h
    | false =>
    cases hD : ProductController.cidUpdInvalid b.category_id with
    | true => simp [ProductController.updateProduct, hA, hB, hC, hD] at h
    | false =>
    cases hfil : db.products.filter (fun p => sqlIdMatches p.id id) with
    | nil => simp [ProductController.updateProduct, hA, hB, hC, hD, hfil] at h
    | cons q qs =>
    cases hE : b.category_id.truthy && !(ProductController.categoryExists b.category_id db) with
    | true => simp [ProductController.updateProduct, hA, hB, hC, hD, hfil, hE] at h
    | false =>
    simp [ProductController.updateProduct, hA, hB, hC, hD, hfil, hE] at hp
    exact updateRows_overwrites id b db.products p (List.mem_map.mpr hp) hm
  refine ⟨main, ?_⟩
  intro hn hpr hc p hp hm
  have h3 := main p hp hm
  rw [hn, hpr, hc] at h3
  simpa [escape] using h3

/-- C4 witness: updating product 1 with all three fields absent succeeds
with 200 and leaves the row's three columns `NULL`. -/
theorem C4_updateProduct_witness :
    (ProductController.updateProduct "1" ⟨.undef, .undef, .undef⟩ oneProdDB).status = 200 ∧
    (ProductRow.mk 1 JsVal.null JsVal.null JsVal.null) ∈
      (ProductController.updateProduct "1" ⟨.undef, .undef, .undef⟩ oneProdDB).db.products ∧
    (ProductRow.mk 1 JsVal.null JsVal.null JsVal.null).name = JsVal.null ∧
    (ProductRow.mk 1 JsVal.null JsVal.null JsVal.null).price = JsVal.null ∧
    (ProductRow.mk 1 JsVal.null JsVal.null JsVal.null).category_id = JsVal.null := by
  have hs : (ProductController.updateProduct "1" ⟨.undef, .undef, .undef⟩ oneProdDB).status = 200 := by
    decide
  have hmem : (ProductRow.mk 1 JsVal.null JsVal.null JsVal.null) ∈
      (ProductController.updateProduct "1" ⟨.undef, .undef, .undef⟩ oneProdDB).db.products := by
    decide
  have happ := (C4_updateProduct_overwritesAllColumns "1" ⟨.undef, .undef, .undef⟩
    oneProdDB hs).1 ⟨1, .null, .null, .null⟩ hmem (by decide)
  exact ⟨hs, hmem, happ.1, happ.2.1, happ.2.2⟩

/-- C6: in `updateProduct`, a falsy supplied field never triggers the
corresponding field validation error — in particular price `0` and the
empty-string name pass field validation. -/
theorem C6_update_falsyFieldsNotValidated (id : String)
    (b : ProductController.ProductBody) (db : DB) :
    (b.name.truthy = false →
      (ProductController.updateProduct id b db).body ≠
        ProdBody.error "Product name must be a non-empty string.") ∧
    (b.price.truthy = false →
      (ProductController.updateProduct id b db).body ≠
        ProdBody.error "Product price must be a positive number.") ∧
    (b.category_id.truthy = false →
      (ProductController.updateProduct id b db).body ≠
        ProdBody.error "Category ID must be a valid number.") := by
  refine ⟨?_, ?_, ?_⟩ <;> intro hf <;> unfold ProductController.updateProduct
  all_goals repeat' split
  all_goals intro hcon
  all_goals
    simp_all [ProductController.nameUpdInvalid, ProductController.priceUpdInvalid,
      ProductController.cidUpdInvalid]

/-- C6 witness: an update supplying price `0` and an empty-string name is
not rejected by field validation (on the empty store the outcome is the
404 existence error, not a field validation error). -/
theorem C6_update_witness :
    (ProductController.updateProduct "1" ⟨.jstr "", .jnum 0, .undef⟩ emptyDB).body ≠
      ProdBody.error "Product name must be a non-empty string." ∧
    (ProductController.updateProduct "1" ⟨.jstr "", .jnum 0, .undef⟩ emptyDB).body ≠
      ProdBody.error "Product price must be a positive number." := by
  have h := C6_update_falsyFieldsNotValidated "1" ⟨.jstr "", .jnum 0, .undef⟩ emptyDB
  exact ⟨h.1 (by decide), h.2.1 (by decide)⟩
